import Mathlib

/-!
Verification of the legacy Docker integration bridge (`bootstrap/docker.go`).

The Go code is shallowly embedded: the shell abstraction becomes a `Shell`
state record (working directory, environment, trace of external commands,
warnings, printed headers), external command outcomes are supplied by a
`Runner` oracle mapping a command line to an optional error, and the Go
standard-library helpers the file uses (`strings.Fields`, `strings.Split`,
`strings.Replace`, `path/filepath.Rel` on Unix) are modelled as executable
Lean functions over character lists.
-/

namespace DockerBridge

abbrev Err := String

/-- Model of Go `unicode.IsSpace` restricted to the Latin-1 range (the full
Unicode space table is not needed for these claims). -/
def goIsSpace (c : Char) : Bool :=
  c = ' ' || c = '\t' || c = '\n' || c = '\u000B' || c = '\u000C' || c = '\r' ||
  c = '\u0085' || c = ' '

/-- Split a character list on a single separator character, keeping empty
segments, as Go `strings.Split` does for a one-character separator. -/
def splitOnCharL (sep : Char) : List Char → List (List Char)
  | [] => [[]]
  | c :: cs =>
    let r := splitOnCharL sep cs
    if c = sep then [] :: r
    else (c :: r.headD []) :: r.tail

/-- Split a character list at every character satisfying `p`, keeping empty
segments. -/
def splitOnPredL (p : Char → Bool) : List Char → List (List Char)
  | [] => [[]]
  | c :: cs =>
    let r := splitOnPredL p cs
    if p c then [] :: r
    else (c :: r.headD []) :: r.tail

/-- Model of Go `strings.Split(s, sep)` for a one-character separator. -/
def goSplitChar (sep : Char) (s : String) : List String :=
  (splitOnCharL sep s.data).map String.mk

/-- Model of Go `strings.Fields`: split around runs of whitespace, dropping
empty segments. -/
def goFields (s : String) : List String :=
  ((splitOnPredL goIsSpace s.data).filter (fun l => !l.isEmpty)).map String.mk

/-- Model of Go `strings.Replace(s, "-", "", -1)`: with a one-character
pattern and empty replacement this removes every hyphen. -/
def goRemoveDashes (s : String) : String :=
  String.mk (s.data.filter (fun c => !(c = '-')))

/-- Whether a path string begins with the Unix path separator. -/
def startsWithSlash (s : String) : Bool :=
  match s.data with
  | '/' :: _ => true
  | _ => false

/-- Model of Go `path.Clean` for Unix paths, in the standard components
formulation: drop empty and `.` components, resolve `..` against a stack
(discarding it at the root, keeping it at the front of a relative path). -/
def goPathClean (p : String) : String :=
  if p = "" then "."
  else
    let rooted := startsWithSlash p
    let comps := (splitOnCharL '/' p.data).filter (fun c => !c.isEmpty && !(c = ['.']))
    let stack := comps.foldl (fun st c =>
      if c = ['.', '.'] then
        match st with
        | [] => if rooted then [] else [['.', '.']]
        | top :: rest => if top = ['.', '.'] then c :: top :: rest else rest
      else c :: st) []
    let body := String.intercalate "/" (stack.reverse.map String.mk)
    let res := if rooted then "/" ++ body else body
    if res = "" then "." else res

/-- Length of the longest common prefix of two lists of path elements. -/
def commonLen : List String → List String → Nat
  | a :: as, b :: bs => if a = b then commonLen as bs + 1 else 0
  | _, _ => 0

/-- Path elements of a cleaned path, after stripping the leading slash of an
absolute path; the root itself and the empty relative path have no elements. -/
def pathElems (s : String) (slashed : Bool) : List String :=
  let t := if slashed then s.drop 1 else s
  if t = "" then [] else (splitOnCharL '/' t.data).map String.mk

/-- Model of Go `path/filepath.Rel` on Unix (no volume names): clean both
paths, require agreement on absoluteness, align the common element prefix,
refuse to ascend through a leading `..` of the base remainder, and otherwise
produce one `..` per remaining base element followed by the target
remainder. -/
def goFilepathRel (basepath targpath : String) : Except Err String :=
  let base0 := goPathClean basepath
  let targ := goPathClean targpath
  if targ = base0 then .ok "."
  else
    let base := if base0 = "." then "" else base0
    let baseSlashed := startsWithSlash base
    let targSlashed := startsWithSlash targ
    if baseSlashed != targSlashed then
      .error ("Rel: can't make " ++ targpath ++ " relative to " ++ basepath)
    else
      let baseE := pathElems base baseSlashed
      let targE := pathElems targ targSlashed
      let n := commonLen baseE targE
      let baseRest := baseE.drop n
      let targRest := targE.drop n
      if baseRest.headD "" = ".." then
        .error ("Rel: can't make " ++ targpath ++ " relative to " ++ basepath)
      else if baseRest.isEmpty then
        .ok (String.intercalate "/" targRest)
      else
        .ok (String.intercalate "/" (baseRest.map (fun _ => "..") ++ targRest))

/-- Modelled from the spec: the executor's environment capability (the
`shell` package is not under `src/`); an association list read through
first-match lookup. -/
abbrev Env := List (String × String)

/-- Modelled from the spec: `getEnv(name) -> (value, present)`. -/
def envGet : Env → String → Option String
  | [], _ => none
  | (k', v) :: e, k => if k' = k then some v else envGet e k

/-- Value of a variable, defaulting to the empty string when unset, as Go
callers that discard the presence flag observe it. -/
def envGetD (e : Env) (k : String) : String :=
  (envGet e k).getD ""

/-- Modelled from the spec: presence test `Exists`. -/
def envExists (e : Env) (k : String) : Bool :=
  (envGet e k).isSome

/-- Modelled from the spec: `setEnv(name, value)`, overwriting semantics via
shadowing under first-match lookup. -/
def envSet (e : Env) (k v : String) : Env :=
  (k, v) :: e

/-- Modelled from the spec: `getBoolEnv(name, default) -> bool`; the default
when the variable is unset, otherwise whether the value reads as true. -/
def envGetBool (e : Env) (k : String) (d : Bool) : Bool :=
  match envGet e k with
  | none => d
  | some v => v = "true" || v = "1"

/-- Shell state: working directory, environment, the ordered trace of
external command invocations, emitted warnings and printed headers. -/
structure Shell where
  wd : String
  env : Env
  trace : List (String × List String)
  warnings : List String
  prints : List String

/-- Outcome oracle for external commands: given a command name and its
arguments, the error the invocation returns, if any. -/
abbrev Runner := String → List String → Option Err

/-- Model of `shell.Run`: record the invocation and return the oracle's
outcome for it. -/
def Shell.runCmd (sh : Shell) (r : Runner) (cmd : String) (args : List String) :
    Option Err × Shell :=
  (r cmd args, { sh with trace := sh.trace ++ [(cmd, args)] })

/-- Model of `shell.Warningf` with the format already applied. -/
def Shell.warn (sh : Shell) (msg : String) : Shell :=
  { sh with warnings := sh.warnings ++ [msg] }

/-- Model of `shell.Printf` and `shell.Headerf` with the format applied. -/
def Shell.say (sh : Shell) (msg : String) : Shell :=
  { sh with prints := sh.prints ++ [msg] }

/-- The recognized legacy environment variables, in the order of the
`dockerEnv` slice. -/
def dockerEnv : List String :=
  ["BUILDKITE_DOCKER_COMPOSE_CONTAINER",
   "BUILDKITE_DOCKER_COMPOSE_FILE",
   "BUILDKITE_DOCKER",
   "BUILDKITE_DOCKER_FILE",
   "BUILDKITE_DOCKER_COMPOSE_BUILD_ALL",
   "BUILDKITE_DOCKER_COMPOSE_LEAVE_VOLUMES"]

/-- `hasDeprecatedDockerIntegration`: any recognized variable present. -/
def hasDeprecatedDockerIntegration (sh : Shell) : Bool :=
  dockerEnv.any (fun k => envExists sh.env k)

/-- The `-f` file arguments of a `docker-compose` invocation: the compose
file variable (defaulted to `docker-compose.yml` when empty) split on
whitespace into chunks, each chunk split on colons, one `-f file` pair per
resulting path, in order, accumulated as the source's nested loops do. -/
def composeFileArgs (e : Env) : List String :=
  let composeFile0 := envGetD e "BUILDKITE_DOCKER_COMPOSE_FILE"
  let composeFile := if composeFile0 = "" then "docker-compose.yml" else composeFile0
  (goFields composeFile).foldl
    (fun acc chunk => (goSplitChar ':' chunk).foldl (fun acc2 file => acc2 ++ ["-f", file]) acc)
    []

/-- Full argument list of one `docker-compose` invocation:
file arguments, `-p projectName`, `--verbose` when the debug flag is set,
then the subcommand arguments. -/
def dockerComposeArgs (e : Env) (projectName : String) (commandArgs : List String) :
    List String :=
  let args := composeFileArgs e
  let args := args ++ ["-p", projectName]
  let args := if envGetBool e "BUILDKITE_AGENT_DEBUG" false then args ++ ["--verbose"] else args
  args ++ commandArgs

/-- `runDockerCompose`: run `docker-compose` with the synthesized
arguments. -/
def runDockerCompose (r : Runner) (sh : Shell) (projectName : String)
    (commandArgs : List String) : Option Err × Shell :=
  sh.runCmd r "docker-compose" (dockerComposeArgs sh.env projectName commandArgs)

/-- `runDockerComposeCommand`: derive and record the compose project name,
build (all services or the selected one), then run the script in the
selected service. -/
def runDockerComposeCommand (r : Runner) (sh : Shell) (scriptPath : String) :
    Option Err × Shell :=
  let composeContainer := envGetD sh.env "BUILDKITE_DOCKER_COMPOSE_CONTAINER"
  let jobId := envGetD sh.env "BUILDKITE_JOB_ID"
  let projectName := goRemoveDashes ("buildkite" ++ jobId)
  let sh := { sh with env := envSet sh.env "COMPOSE_PROJ_NAME" projectName }
  let sh := sh.say ":docker: Building Docker images"
  let step :=
    if envGetBool sh.env "BUILDKITE_DOCKER_COMPOSE_BUILD_ALL" false then
      runDockerCompose r sh projectName ["build", "--pull"]
    else
      runDockerCompose r sh projectName ["build", "--pull", composeContainer]
  match step with
  | (some e, sh1) => (some e, sh1)
  | (none, sh1) =>
    let sh1 := sh1.say ":docker: Running command (in Docker Compose container)"
    runDockerCompose r sh1 projectName ["run", composeContainer, scriptPath]

/-- `runDockerCommand`: record the container and image markers, build the
image, then run the script in a fresh container. -/
def runDockerCommand (r : Runner) (sh : Shell) (scriptPath : String) :
    Option Err × Shell :=
  let jobId := envGetD sh.env "BUILDKITE_JOB_ID"
  let dockerContainer := "buildkite_" ++ jobId ++ "_container"
  let dockerImage := "buildkite_" ++ jobId ++ "_image"
  let dockerFile0 := envGetD sh.env "BUILDKITE_DOCKER_FILE"
  let dockerFile := if dockerFile0 = "" then "Dockerfile" else dockerFile0
  let sh := { sh with env := envSet (envSet sh.env "DOCKER_CONTAINER" dockerContainer)
                        "DOCKER_IMAGE" dockerImage }
  let sh := sh.say ("~~~ :docker: Building Docker image " ++ dockerImage)
  match sh.runCmd r "docker" ["build", "-f", dockerFile, "-t", dockerImage, "."] with
  | (some e, sh1) => (some e, sh1)
  | (none, sh1) =>
    let sh1 := sh1.say ":docker: Running command (in Docker container)"
    match sh1.runCmd r "docker" ["run", "--name", dockerContainer, dockerImage, scriptPath] with
    | (some e, sh2) => (some e, sh2)
    | (none, sh2) => (none, sh2)

/-- Deprecation warning emitted on the compose-container branch. -/
def deprecatedComposeMsg : String :=
  "BUILDKITE_DOCKER_COMPOSE_CONTAINER is set, which is deprecated in Agent v3 and will be removed in v4. Consider using the :docker: docker-compose plugin instead at https://github.com/buildkite-plugins/docker-compose-buildkite-plugin."

/-- Deprecation warning emitted on the plain-docker branch. -/
def deprecatedDockerMsg : String :=
  "BUILDKITE_DOCKER is set, which is deprecated in Agent v3 and will be removed in v4. Consider using the docker plugin instead at https://github.com/buildkite-plugins/docker-buildkite-plugin."

/-- Warning for a dependent flag set without its prerequisite, with the
format of `warnNotSet` applied. -/
def warnNotSetMsg (k1 k2 : String) : String :=
  k1 ++ " is set, but without " ++ k2 ++ ", which it requires. You should be able to safely remove this from your pipeline."

/-- The generic terminal error of the run entry point. -/
def failedToFindDockerEnv : Err := "Failed to find any docker env"

/-- `runDeprecatedDockerIntegration`: relativize the script path, then the
source's switch over the recognized variables, with its duplicated
leave-volumes case kept verbatim. -/
def runDeprecatedDockerIntegration (r : Runner) (sh : Shell) (scriptPath : String) :
    Option Err × Shell :=
  match goFilepathRel sh.wd scriptPath with
  | .error e => (some e, sh)
  | .ok relativePath =>
    let relativePathToDot := "." ++ "/" ++ relativePath
    if envExists sh.env "BUILDKITE_DOCKER_COMPOSE_CONTAINER" then
      runDockerComposeCommand r (sh.warn deprecatedComposeMsg) relativePathToDot
    else if envExists sh.env "BUILDKITE_DOCKER" then
      runDockerCommand r (sh.warn deprecatedDockerMsg) relativePathToDot
    else if envExists sh.env "BUILDKITE_DOCKER_COMPOSE_FILE" then
      (some failedToFindDockerEnv,
       sh.warn (warnNotSetMsg "BUILDKITE_DOCKER_COMPOSE_FILE" "BUILDKITE_DOCKER_COMPOSE_CONTAINER"))
    else if envExists sh.env "BUILDKITE_DOCKER_COMPOSE_BUILD_ALL" then
      (some failedToFindDockerEnv,
       sh.warn (warnNotSetMsg "BUILDKITE_DOCKER_COMPOSE_BUILD_ALL" "BUILDKITE_DOCKER_COMPOSE_CONTAINER"))
    else if envExists sh.env "BUILDKITE_DOCKER_COMPOSE_LEAVE_VOLUMES" then
      (some failedToFindDockerEnv,
       sh.warn (warnNotSetMsg "BUILDKITE_DOCKER_COMPOSE_LEAVE_VOLUMES" "BUILDKITE_DOCKER_COMPOSE_CONTAINER"))
    else if envExists sh.env "BUILDKITE_DOCKER_COMPOSE_LEAVE_VOLUMES" then
      (some failedToFindDockerEnv,
       sh.warn (warnNotSetMsg "BUILDKITE_DOCKER_COMPOSE_LEAVE_VOLUMES" "BUILDKITE_DOCKER_COMPOSE_CONTAINER"))
    else
      (some failedToFindDockerEnv, sh)

/-- `tearDownDeprecatedDockerIntegration`: force-remove the recorded docker
container, or kill, force-remove and take down the recorded compose project,
or do nothing. -/
def tearDownDeprecatedDockerIntegration (r : Runner) (sh : Shell) : Option Err × Shell :=
  match envGet sh.env "DOCKER_CONTAINER" with
  | some container =>
    let sh := sh.say "~~~ Cleaning up Docker containers"
    match sh.runCmd r "docker" ["rm", "-f", "-v", container] with
    | (some e, sh1) => (some e, sh1)
    | (none, sh1) => (none, sh1)
  | none =>
    match envGet sh.env "COMPOSE_PROJ_NAME" with
    | some projectName =>
      let sh := sh.say "~~~ Cleaning up Docker containers"
      let sh := (runDockerCompose r sh projectName ["kill"]).2
      let sh :=
        if envGetBool sh.env "BUILDKITE_DOCKER_COMPOSE_LEAVE_VOLUMES" false then
          (runDockerCompose r sh projectName ["rm", "--force", "--all"]).2
        else
          (runDockerCompose r sh projectName ["rm", "--force", "--all", "-v"]).2
      runDockerCompose r sh projectName ["down"]
    | none => (none, sh)

/-- Modelled from the spec: the surrounding bootstrap (not under `src/`)
invokes the legacy run phase only when detection succeeds, so with no
recognized variable set the bridge does nothing and reports no error. -/
def runBridge (r : Runner) (sh : Shell) (scriptPath : String) : Option Err × Shell :=
  if hasDeprecatedDockerIntegration sh then
    runDeprecatedDockerIntegration r sh scriptPath
  else
    (none, sh)

/-- Claim-side form of the run entry point with the duplicated
leave-volumes case removed, for comparison with the source form. -/
def runDeprecatedDockerIntegrationDedup (r : Runner) (sh : Shell) (scriptPath : String) :
    Option Err × Shell :=
  match goFilepathRel sh.wd scriptPath with
  | .error e => (some e, sh)
  | .ok relativePath =>
    let relativePathToDot := "." ++ "/" ++ relativePath
    if envExists sh.env "BUILDKITE_DOCKER_COMPOSE_CONTAINER" then
      runDockerComposeCommand r (sh.warn deprecatedComposeMsg) relativePathToDot
    else if envExists sh.env "BUILDKITE_DOCKER" then
      runDockerCommand r (sh.warn deprecatedDockerMsg) relativePathToDot
    else if envExists sh.env "BUILDKITE_DOCKER_COMPOSE_FILE" then
      (some failedToFindDockerEnv,
       sh.warn (warnNotSetMsg "BUILDKITE_DOCKER_COMPOSE_FILE" "BUILDKITE_DOCKER_COMPOSE_CONTAINER"))
    else if envExists sh.env "BUILDKITE_DOCKER_COMPOSE_BUILD_ALL" then
      (some failedToFindDockerEnv,
       sh.warn (warnNotSetMsg "BUILDKITE_DOCKER_COMPOSE_BUILD_ALL" "BUILDKITE_DOCKER_COMPOSE_CONTAINER"))
    else if envExists sh.env "BUILDKITE_DOCKER_COMPOSE_LEAVE_VOLUMES" then
      (some failedToFindDockerEnv,
       sh.warn (warnNotSetMsg "BUILDKITE_DOCKER_COMPOSE_LEAVE_VOLUMES" "BUILDKITE_DOCKER_COMPOSE_CONTAINER"))
    else
      (some failedToFindDockerEnv, sh)

/-- Claim-side description of the compose `-f` file arguments: the value
split on whitespace into chunks, each chunk split on colons, and every
resulting path emitted as a consecutive `-f path` pair in left-to-right
order. -/
def specComposeFilePairs (v : String) : List String :=
  ((goFields v).flatMap (goSplitChar ':')).flatMap (fun file => ["-f", file])

/-- Runner oracle on which every external command succeeds. -/
def allOk : Runner := fun _ _ => none

/-- Shell fixture with the given environment, working directory `/wd` and
empty histories. -/
def mkShell (e : Env) : Shell :=
  { wd := "/wd", env := e, trace := [], warnings := [], prints := [] }

/-- Fixture for scenario A: `BUILDKITE_DOCKER=1`, `BUILDKITE_JOB_ID=42`. -/
def scenarioASh : Shell :=
  mkShell [("BUILDKITE_DOCKER", "1"), ("BUILDKITE_JOB_ID", "42")]

/-- Fixture with both a compose-container selector and the plain docker
flag present. -/
def bothFlagsSh : Shell :=
  mkShell [("BUILDKITE_DOCKER_COMPOSE_CONTAINER", "app"), ("BUILDKITE_DOCKER", "1"),
           ("BUILDKITE_JOB_ID", "42")]

/-- Fixture whose environment records a compose project marker only. -/
def composeMarkerSh : Shell :=
  mkShell [("COMPOSE_PROJ_NAME", "buildkite42")]

/-- Fixture whose environment records a docker container marker only. -/
def dockerMarkerSh : Shell :=
  mkShell [("DOCKER_CONTAINER", "buildkite_42_container")]

/-- Fixture with a compose file set but no compose container selector. -/
def misconfiguredSh : Shell :=
  mkShell [("BUILDKITE_DOCKER_COMPOSE_FILE", "a.yml")]

/-- Fixture with an empty environment. -/
def emptyEnvSh : Shell :=
  mkShell []

/-- Fixture with a hyphenated job identifier and a compose selector. -/
def hyphenJobSh : Shell :=
  mkShell [("BUILDKITE_JOB_ID", "abc-123-def"), ("BUILDKITE_DOCKER_COMPOSE_CONTAINER", "app")]

theorem foldl_append_flat {α β : Type} (f : α → List β) :
    ∀ (l : List α) (acc : List β),
      l.foldl (fun a x => a ++ f x) acc = acc ++ l.flatMap f
  | [], acc => by simp
  | x :: l, acc => by
    simp [List.foldl_cons, foldl_append_flat f l, List.append_assoc]

theorem nested_fold_flat (l : List String) (acc : List String) :
    l.foldl (fun a chunk => (goSplitChar ':' chunk).foldl (fun a2 file => a2 ++ ["-f", file]) a) acc =
      acc ++ (l.flatMap (goSplitChar ':')).flatMap (fun file => ["-f", file]) := by
  induction l generalizing acc with
  | nil => simp
  | cons c t ih =>
    simp [List.foldl_cons, ih, foldl_append_flat, List.flatMap_cons, List.flatMap_append,
      List.append_assoc, List.flatMap_assoc]

theorem envGet_envSet_self (e : Env) (k v : String) :
    envGet (envSet e k v) k = some v := by
  simp [envSet, envGet]

theorem envGet_envSet_ne (e : Env) (k k' v : String) (h : ¬(k' = k)) :
    envGet (envSet e k' v) k = envGet e k := by
  simp [envSet, envGet, h]

theorem envExists_envSet_ne (e : Env) (k k' v : String) (h : ¬(k' = k)) :
    envExists (envSet e k' v) k = envExists e k := by
  simp [envExists, envGet_envSet_ne e k k' v h]

theorem runDockerComposeCommand_env (r : Runner) (sh : Shell) (sp : String) :
    (runDockerComposeCommand r sh sp).2.env =
      envSet sh.env "COMPOSE_PROJ_NAME"
        (goRemoveDashes ("buildkite" ++ envGetD sh.env "BUILDKITE_JOB_ID")) := by
  unfold runDockerComposeCommand
  cases hb : envGetBool
      (envSet sh.env "COMPOSE_PROJ_NAME"
        (goRemoveDashes ("buildkite" ++ envGetD sh.env "BUILDKITE_JOB_ID")))
      "BUILDKITE_DOCKER_COMPOSE_BUILD_ALL" false <;>
    simp only [hb, Shell.say, runDockerCompose, Shell.runCmd, if_true, if_false,
      Bool.false_eq_true, ite_false, ite_true] <;>
    cases hr : r "docker-compose" (dockerComposeArgs
        (envSet sh.env "COMPOSE_PROJ_NAME"
          (goRemoveDashes ("buildkite" ++ envGetD sh.env "BUILDKITE_JOB_ID")))
        (goRemoveDashes ("buildkite" ++ envGetD sh.env "BUILDKITE_JOB_ID"))
        _) <;>
    simp [hr]

theorem runDockerCommand_env (r : Runner) (sh : Shell) (sp : String) :
    (runDockerCommand r sh sp).2.env =
      envSet (envSet sh.env "DOCKER_CONTAINER"
          ("buildkite_" ++ envGetD sh.env "BUILDKITE_JOB_ID" ++ "_container"))
        "DOCKER_IMAGE" ("buildkite_" ++ envGetD sh.env "BUILDKITE_JOB_ID" ++ "_image") := by
  unfold runDockerCommand
  cases hr : r "docker" ["build", "-f",
      (if envGetD sh.env "BUILDKITE_DOCKER_FILE" = "" then "Dockerfile"
       else envGetD sh.env "BUILDKITE_DOCKER_FILE"), "-t",
      "buildkite_" ++ envGetD sh.env "BUILDKITE_JOB_ID" ++ "_image", "."] with
  | none =>
    simp only [Shell.say, Shell.runCmd, hr]
    cases hr2 : r "docker" ["run", "--name",
        "buildkite_" ++ envGetD sh.env "BUILDKITE_JOB_ID" ++ "_container",
        "buildkite_" ++ envGetD sh.env "BUILDKITE_JOB_ID" ++ "_image", sp] <;>
      simp [hr2]
  | some e => simp [Shell.say, Shell.runCmd, hr]

theorem runDockerComposeCommand_trace_mem (r : Runner) (sh : Shell) (sp : String) :
    ∀ e ∈ (runDockerComposeCommand r sh sp).2.trace, e ∈ sh.trace ∨ e.1 = "docker-compose" := by
  unfold runDockerComposeCommand
  cases hb : envGetBool
      (envSet sh.env "COMPOSE_PROJ_NAME"
        (goRemoveDashes ("buildkite" ++ envGetD sh.env "BUILDKITE_JOB_ID")))
      "BUILDKITE_DOCKER_COMPOSE_BUILD_ALL" false <;>
    simp only [hb, Shell.say, runDockerCompose, Shell.runCmd, if_true, if_false,
      Bool.false_eq_true, ite_false, ite_true] <;>
    cases hr : r "docker-compose" (dockerComposeArgs
        (envSet sh.env "COMPOSE_PROJ_NAME"
          (goRemoveDashes ("buildkite" ++ envGetD sh.env "BUILDKITE_JOB_ID")))
        (goRemoveDashes ("buildkite" ++ envGetD sh.env "BUILDKITE_JOB_ID"))
        _) <;>
    simp [hr, List.mem_append] <;>
    intro e he <;>
    tauto

/-- C1: whenever both `BUILDKITE_DOCKER_COMPOSE_CONTAINER` and
`BUILDKITE_DOCKER` are present (and the script path relativizes), the run
entry point takes the `runDockerComposeCommand` path on the warned shell,
and every external command it records is a `docker-compose` invocation, so
the `runDockerCommand` path is never taken. -/
theorem compose_precedence_over_docker (r : Runner) (sh : Shell) (scriptPath rel : String)
    (hrel : goFilepathRel sh.wd scriptPath = .ok rel)
    (hcc : envExists sh.env "BUILDKITE_DOCKER_COMPOSE_CONTAINER" = true)
    (_hd : envExists sh.env "BUILDKITE_DOCKER" = true) :
    runDeprecatedDockerIntegration r sh scriptPath =
      runDockerComposeCommand r (sh.warn deprecatedComposeMsg) ("." ++ "/" ++ rel) ∧
    ∀ e ∈ (runDeprecatedDockerIntegration r sh scriptPath).2.trace,
      e ∈ sh.trace ∨ e.1 = "docker-compose" := by
  have h1 : runDeprecatedDockerIntegration r sh scriptPath =
      runDockerComposeCommand r (sh.warn deprecatedComposeMsg) ("." ++ "/" ++ rel) := by
    unfold runDeprecatedDockerIntegration
    rw [hrel]
    simp [hcc]
  refine ⟨h1, ?_⟩
  rw [h1]
  have h2 := runDockerComposeCommand_trace_mem r (sh.warn deprecatedComposeMsg) ("." ++ "/" ++ rel)
  simpa [Shell.warn] using h2

/-- Witness for C1 at a concrete shell with both variables present. -/
theorem compose_precedence_over_docker_witness :
    goFilepathRel bothFlagsSh.wd "/wd/script.sh" = .ok "script.sh" ∧
    envExists bothFlagsSh.env "BUILDKITE_DOCKER_COMPOSE_CONTAINER" = true ∧
    envExists bothFlagsSh.env "BUILDKITE_DOCKER" = true ∧
    (runDeprecatedDockerIntegration allOk bothFlagsSh "/wd/script.sh" =
       runDockerComposeCommand allOk (bothFlagsSh.warn deprecatedComposeMsg)
         ("." ++ "/" ++ "script.sh") ∧
     ∀ e ∈ (runDeprecatedDockerIntegration allOk bothFlagsSh "/wd/script.sh").2.trace,
       e ∈ bothFlagsSh.trace ∨ e.1 = "docker-compose") :=
  ⟨rfl, by decide, by decide,
   compose_precedence_over_docker allOk bothFlagsSh "/wd/script.sh" "script.sh" rfl
     (by decide) (by decide)⟩

/-- C2: one `runDockerCompose` invocation records exactly one
`docker-compose` command whose argument list starts with the flattened
whitespace-then-colon split of the compose-file variable as consecutive
`-f path` pairs in order (with no default file added) when the variable is
set nonempty, and with the single pair `-f docker-compose.yml` when it is
unset or empty, followed by `-p`, the optional `--verbose`, and the
subcommand arguments; the invocation result is the oracle outcome for that
exact command. -/
theorem compose_file_args_exact (r : Runner) (sh : Shell) (p : String) (c : List String) :
    runDockerCompose r sh p c =
      (r "docker-compose"
         ((if envGetD sh.env "BUILDKITE_DOCKER_COMPOSE_FILE" = ""
           then ["-f", "docker-compose.yml"]
           else specComposeFilePairs (envGetD sh.env "BUILDKITE_DOCKER_COMPOSE_FILE"))
          ++ ["-p", p]
          ++ (if envGetBool sh.env "BUILDKITE_AGENT_DEBUG" false then ["--verbose"] else [])
          ++ c),
       { sh with trace := sh.trace ++ [("docker-compose",
          (if envGetD sh.env "BUILDKITE_DOCKER_COMPOSE_FILE" = ""
           then ["-f", "docker-compose.yml"]
           else specComposeFilePairs (envGetD sh.env "BUILDKITE_DOCKER_COMPOSE_FILE"))
          ++ ["-p", p]
          ++ (if envGetBool sh.env "BUILDKITE_AGENT_DEBUG" false then ["--verbose"] else [])
          ++ c)] }) := by
  have hargs : dockerComposeArgs sh.env p c =
      (if envGetD sh.env "BUILDKITE_DOCKER_COMPOSE_FILE" = ""
       then ["-f", "docker-compose.yml"]
       else specComposeFilePairs (envGetD sh.env "BUILDKITE_DOCKER_COMPOSE_FILE"))
      ++ ["-p", p]
      ++ (if envGetBool sh.env "BUILDKITE_AGENT_DEBUG" false then ["--verbose"] else []) ++ c := by
    unfold dockerComposeArgs composeFileArgs specComposeFilePairs
    by_cases hv : envGetD sh.env "BUILDKITE_DOCKER_COMPOSE_FILE" = ""
    · have hdef : ((goFields "docker-compose.yml").flatMap (goSplitChar ':')).flatMap
          (fun file => ["-f", file]) = ["-f", "docker-compose.yml"] := by decide
      simp only [hv, ite_true, nested_fold_flat, hdef]
      cases hd : envGetBool sh.env "BUILDKITE_AGENT_DEBUG" false <;> simp [List.append_assoc]
    · simp only [hv, ite_false, nested_fold_flat]
      cases hd : envGetBool sh.env "BUILDKITE_AGENT_DEBUG" false <;> simp [List.append_assoc]
  unfold runDockerCompose Shell.runCmd
  rw [hargs]

/-- C3: scenario A — with `BUILDKITE_DOCKER=1` and `BUILDKITE_JOB_ID=42`
and every command succeeding, the run phase invokes exactly
`docker build -f Dockerfile -t buildkite_42_image .` and then
`docker run --name buildkite_42_container buildkite_42_image ./script.sh`,
and afterwards `DOCKER_CONTAINER` is `buildkite_42_container`. -/
theorem scenario_a_docker_build_run_marker :
    (runDeprecatedDockerIntegration allOk scenarioASh "/wd/script.sh").2.trace =
      [("docker", ["build", "-f", "Dockerfile", "-t", "buildkite_42_image", "."]),
       ("docker", ["run", "--name", "buildkite_42_container", "buildkite_42_image",
                   "./script.sh"])] ∧
    envGet (runDeprecatedDockerIntegration allOk scenarioASh "/wd/script.sh").2.env
      "DOCKER_CONTAINER" = some "buildkite_42_container" ∧
    (runDeprecatedDockerIntegration allOk scenarioASh "/wd/script.sh").1 = none :=
  ⟨by decide, by decide, by decide⟩

/-- C4: with `COMPOSE_PROJ_NAME` set and `DOCKER_CONTAINER` unset, teardown
records `kill`, then the forced `rm --force --all` with `-v` appended
exactly when the leave-volumes flag is false, then `down`, and its returned
error is the oracle outcome of the final `down` invocation alone. -/
theorem teardown_compose_kill_rm_down_propagates_down (r : Runner) (sh : Shell) (pn : String)
    (hdc : envGet sh.env "DOCKER_CONTAINER" = none)
    (hpn : envGet sh.env "COMPOSE_PROJ_NAME" = some pn) :
    tearDownDeprecatedDockerIntegration r sh =
      (r "docker-compose" (dockerComposeArgs sh.env pn ["down"]),
       { sh with
         prints := sh.prints ++ ["~~~ Cleaning up Docker containers"],
         trace := sh.trace ++
           [("docker-compose", dockerComposeArgs sh.env pn ["kill"]),
            ("docker-compose", dockerComposeArgs sh.env pn
              (["rm", "--force", "--all"] ++
               (if envGetBool sh.env "BUILDKITE_DOCKER_COMPOSE_LEAVE_VOLUMES" false
                then [] else ["-v"]))),
            ("docker-compose", dockerComposeArgs sh.env pn ["down"])] }) := by
  unfold tearDownDeprecatedDockerIntegration
  rw [hdc, hpn]
  cases hb : envGetBool sh.env "BUILDKITE_DOCKER_COMPOSE_LEAVE_VOLUMES" false <;>
    simp [hb, runDockerCompose, Shell.runCmd, Shell.say, List.append_assoc]

/-- Witness for C4 at a concrete shell holding only the compose marker. -/
theorem teardown_compose_kill_rm_down_propagates_down_witness :
    envGet composeMarkerSh.env "DOCKER_CONTAINER" = none ∧
    envGet composeMarkerSh.env "COMPOSE_PROJ_NAME" = some "buildkite42" ∧
    tearDownDeprecatedDockerIntegration allOk composeMarkerSh =
      (allOk "docker-compose" (dockerComposeArgs composeMarkerSh.env "buildkite42" ["down"]),
       { composeMarkerSh with
         prints := composeMarkerSh.prints ++ ["~~~ Cleaning up Docker containers"],
         trace := composeMarkerSh.trace ++
           [("docker-compose", dockerComposeArgs composeMarkerSh.env "buildkite42" ["kill"]),
            ("docker-compose", dockerComposeArgs composeMarkerSh.env "buildkite42"
              (["rm", "--force", "--all"] ++
               (if envGetBool composeMarkerSh.env "BUILDKITE_DOCKER_COMPOSE_LEAVE_VOLUMES" false
                then [] else ["-v"]))),
            ("docker-compose", dockerComposeArgs composeMarkerSh.env "buildkite42" ["down"])] }) :=
  ⟨by decide, by decide,
   teardown_compose_kill_rm_down_propagates_down allOk composeMarkerSh "buildkite42"
     (by decide) (by decide)⟩

/-- C5: with `DOCKER_CONTAINER` set to `c`, teardown records exactly the
single command `docker rm -f -v c` and returns its oracle outcome. -/
theorem teardown_docker_rm_force_volumes_only (r : Runner) (sh : Shell) (c : String)
    (h : envGet sh.env "DOCKER_CONTAINER" = some c) :
    tearDownDeprecatedDockerIntegration r sh =
      (r "docker" ["rm", "-f", "-v", c],
       { sh with
         prints := sh.prints ++ ["~~~ Cleaning up Docker containers"],
         trace := sh.trace ++ [("docker", ["rm", "-f", "-v", c])] }) := by
  unfold tearDownDeprecatedDockerIntegration
  rw [h]
  cases hr : r "docker" ["rm", "-f", "-v", c] <;> simp [Shell.say, Shell.runCmd, hr]

/-- Witness for C5 at a concrete shell holding only the docker marker. -/
theorem teardown_docker_rm_force_volumes_only_witness :
    envGet dockerMarkerSh.env "DOCKER_CONTAINER" = some "buildkite_42_container" ∧
    tearDownDeprecatedDockerIntegration allOk dockerMarkerSh =
      (allOk "docker" ["rm", "-f", "-v", "buildkite_42_container"],
       { dockerMarkerSh with
         prints := dockerMarkerSh.prints ++ ["~~~ Cleaning up Docker containers"],
         trace := dockerMarkerSh.trace ++
           [("docker", ["rm", "-f", "-v", "buildkite_42_container"])] }) :=
  ⟨by decide,
   teardown_docker_rm_force_volumes_only allOk dockerMarkerSh "buildkite_42_container"
     (by decide)⟩

/-- C6: with a dependent compose flag set but neither the compose-container
selector nor the plain docker flag, the run entry point emits exactly one
warning naming the first set flag and its missing prerequisite, records no
external command, and returns the generic terminal error. -/
theorem dependent_flag_warns_and_fails_without_commands (r : Runner) (sh : Shell)
    (scriptPath rel : String)
    (hrel : goFilepathRel sh.wd scriptPath = .ok rel)
    (hcc : envExists sh.env "BUILDKITE_DOCKER_COMPOSE_CONTAINER" = false)
    (hd : envExists sh.env "BUILDKITE_DOCKER" = false)
    (hset : (envExists sh.env "BUILDKITE_DOCKER_COMPOSE_FILE" ||
             envExists sh.env "BUILDKITE_DOCKER_COMPOSE_BUILD_ALL" ||
             envExists sh.env "BUILDKITE_DOCKER_COMPOSE_LEAVE_VOLUMES") = true) :
    runDeprecatedDockerIntegration r sh scriptPath =
      (some failedToFindDockerEnv,
       sh.warn (warnNotSetMsg
         (if envExists sh.env "BUILDKITE_DOCKER_COMPOSE_FILE" then
            "BUILDKITE_DOCKER_COMPOSE_FILE"
          else if envExists sh.env "BUILDKITE_DOCKER_COMPOSE_BUILD_ALL" then
            "BUILDKITE_DOCKER_COMPOSE_BUILD_ALL"
          else "BUILDKITE_DOCKER_COMPOSE_LEAVE_VOLUMES")
         "BUILDKITE_DOCKER_COMPOSE_CONTAINER")) ∧
    (runDeprecatedDockerIntegration r sh scriptPath).2.trace = sh.trace := by
  have h1 : runDeprecatedDockerIntegration r sh scriptPath =
      (some failedToFindDockerEnv,
       sh.warn (warnNotSetMsg
         (if envExists sh.env "BUILDKITE_DOCKER_COMPOSE_FILE" then
            "BUILDKITE_DOCKER_COMPOSE_FILE"
          else if envExists sh.env "BUILDKITE_DOCKER_COMPOSE_BUILD_ALL" then
            "BUILDKITE_DOCKER_COMPOSE_BUILD_ALL"
          else "BUILDKITE_DOCKER_COMPOSE_LEAVE_VOLUMES")
         "BUILDKITE_DOCKER_COMPOSE_CONTAINER")) := by
    unfold runDeprecatedDockerIntegration
    rw [hrel]
    cases h3 : envExists sh.env "BUILDKITE_DOCKER_COMPOSE_FILE" with
    | true => simp [hcc, hd, h3]
    | false =>
      cases h4 : envExists sh.env "BUILDKITE_DOCKER_COMPOSE_BUILD_ALL" with
      | true => simp [hcc, hd, h3, h4]
      | false =>
        cases h5 : envExists sh.env "BUILDKITE_DOCKER_COMPOSE_LEAVE_VOLUMES" with
        | true => simp [hcc, hd, h3, h4, h5]
        | false => rw [h3, h4, h5] at hset; simp at hset
  refine ⟨h1, ?_⟩
  rw [h1]
  simp [Shell.warn]

/-- Witness for C6 at a concrete shell with only a compose file set. -/
theorem dependent_flag_warns_and_fails_without_commands_witness :
    goFilepathRel misconfiguredSh.wd "/wd/script.sh" = .ok "script.sh" ∧
    envExists misconfiguredSh.env "BUILDKITE_DOCKER_COMPOSE_CONTAINER" = false ∧
    envExists misconfiguredSh.env "BUILDKITE_DOCKER" = false ∧
    (envExists misconfiguredSh.env "BUILDKITE_DOCKER_COMPOSE_FILE" ||
     envExists misconfiguredSh.env "BUILDKITE_DOCKER_COMPOSE_BUILD_ALL" ||
     envExists misconfiguredSh.env "BUILDKITE_DOCKER_COMPOSE_LEAVE_VOLUMES") = true ∧
    (runDeprecatedDockerIntegration allOk misconfiguredSh "/wd/script.sh" =
       (some failedToFindDockerEnv,
        misconfiguredSh.warn (warnNotSetMsg
          (if envExists misconfiguredSh.env "BUILDKITE_DOCKER_COMPOSE_FILE" then
             "BUILDKITE_DOCKER_COMPOSE_FILE"
           else if envExists misconfiguredSh.env "BUILDKITE_DOCKER_COMPOSE_BUILD_ALL" then
             "BUILDKITE_DOCKER_COMPOSE_BUILD_ALL"
           else "BUILDKITE_DOCKER_COMPOSE_LEAVE_VOLUMES")
          "BUILDKITE_DOCKER_COMPOSE_CONTAINER")) ∧
     (runDeprecatedDockerIntegration allOk misconfiguredSh "/wd/script.sh").2.trace =
       misconfiguredSh.trace) :=
  ⟨rfl, by decide, by decide, by decide,
   dependent_flag_warns_and_fails_without_commands allOk misconfiguredSh "/wd/script.sh"
     "script.sh" rfl (by decide) (by decide) (by decide)⟩

/-- C7: with none of the six recognized variables set, detection reports no
integration and the bridge (which runs the legacy integration only when
detection succeeds) performs no invocation and returns no error. -/
theorem no_recognized_vars_detection_and_noop (r : Runner) (sh : Shell) (scriptPath : String)
    (h : ∀ k ∈ dockerEnv, envExists sh.env k = false) :
    hasDeprecatedDockerIntegration sh = false ∧ runBridge r sh scriptPath = (none, sh) := by
  have h1 : hasDeprecatedDockerIntegration sh = false := by
    unfold hasDeprecatedDockerIntegration
    rw [List.any_eq_false]
    intro k hk
    simp [h k hk]
  exact ⟨h1, by unfold runBridge; simp [h1]⟩

/-- Witness for C7 at the empty environment. -/
theorem no_recognized_vars_detection_and_noop_witness :
    (∀ k ∈ dockerEnv, envExists emptyEnvSh.env k = false) ∧
    (hasDeprecatedDockerIntegration emptyEnvSh = false ∧
     runBridge allOk emptyEnvSh "/wd/script.sh" = (none, emptyEnvSh)) :=
  ⟨by decide,
   no_recognized_vars_detection_and_noop allOk emptyEnvSh "/wd/script.sh" (by decide)⟩

/-- C8: starting from an environment with neither marker set, after a
single invocation of the run entry point the two marker variables
`DOCKER_CONTAINER` and `COMPOSE_PROJ_NAME` are never both set. -/
theorem at_most_one_marker_after_run (r : Runner) (sh : Shell) (scriptPath : String)
    (hdc : envExists sh.env "DOCKER_CONTAINER" = false)
    (hcp : envExists sh.env "COMPOSE_PROJ_NAME" = false) :
    ¬(envExists (runDeprecatedDockerIntegration r sh scriptPath).2.env "DOCKER_CONTAINER" = true ∧
      envExists (runDeprecatedDockerIntegration r sh scriptPath).2.env "COMPOSE_PROJ_NAME" = true) := by
  rintro ⟨ha, hb⟩
  unfold runDeprecatedDockerIntegration at ha hb
  cases hrel : goFilepathRel sh.wd scriptPath with
  | error e =>
    rw [hrel] at ha
    simp only at ha
    exact absurd ha (by simp [hdc])
  | ok rel =>
    rw [hrel] at ha hb
    cases h1 : envExists sh.env "BUILDKITE_DOCKER_COMPOSE_CONTAINER" with
    | true =>
      simp only [h1, if_true, ite_true] at ha
      rw [runDockerComposeCommand_env] at ha
      rw [envExists_envSet_ne _ _ _ _ (by decide)] at ha
      simp only [Shell.warn] at ha
      exact absurd ha (by simp [hdc])
    | false =>
      cases h2 : envExists sh.env "BUILDKITE_DOCKER" with
      | true =>
        simp only [h1, h2, Bool.false_eq_true, if_false, if_true, ite_false, ite_true] at hb
        rw [runDockerCommand_env] at hb
        rw [envExists_envSet_ne _ _ _ _ (by decide)] at hb
        rw [envExists_envSet_ne _ _ _ _ (by decide)] at hb
        simp only [Shell.warn] at hb
        exact absurd hb (by simp [hcp])
      | false =>
        simp only [h1, h2, Bool.false_eq_true, if_false, ite_false] at ha
        split_ifs at ha <;> simp only [Shell.warn] at ha <;> exact absurd ha (by simp [hdc])

/-- Witness for C8 at scenario A's environment, which has no marker set. -/
theorem at_most_one_marker_after_run_witness :
    envExists scenarioASh.env "DOCKER_CONTAINER" = false ∧
    envExists scenarioASh.env "COMPOSE_PROJ_NAME" = false ∧
    ¬(envExists (runDeprecatedDockerIntegration allOk scenarioASh "/wd/script.sh").2.env
        "DOCKER_CONTAINER" = true ∧
      envExists (runDeprecatedDockerIntegration allOk scenarioASh "/wd/script.sh").2.env
        "COMPOSE_PROJ_NAME" = true) :=
  ⟨by decide, by decide,
   at_most_one_marker_after_run allOk scenarioASh "/wd/script.sh" (by decide) (by decide)⟩

/-- C9: the compose project name recorded in `COMPOSE_PROJ_NAME` is
`buildkite` followed by the job identifier with every hyphen removed; in
particular job id `abc-123-def` yields `buildkiteabc123def`. -/
theorem compose_project_name_strips_hyphens (r : Runner) (sh : Shell) (sp : String) :
    envGet (runDockerComposeCommand r sh sp).2.env "COMPOSE_PROJ_NAME" =
      some ("buildkite" ++ goRemoveDashes (envGetD sh.env "BUILDKITE_JOB_ID")) ∧
    (envGetD sh.env "BUILDKITE_JOB_ID" = "abc-123-def" →
      envGet (runDockerComposeCommand r sh sp).2.env "COMPOSE_PROJ_NAME" =
        some "buildkiteabc123def") := by
  have hsplit : goRemoveDashes ("buildkite" ++ envGetD sh.env "BUILDKITE_JOB_ID") =
      "buildkite" ++ goRemoveDashes (envGetD sh.env "BUILDKITE_JOB_ID") := by
    unfold goRemoveDashes
    have hdata : ("buildkite" ++ envGetD sh.env "BUILDKITE_JOB_ID").data =
        "buildkite".data ++ (envGetD sh.env "BUILDKITE_JOB_ID").data := rfl
    rw [hdata, List.filter_append]
    have hb : "buildkite".data.filter (fun c => !(c = '-')) = "buildkite".data := by decide
    rw [hb]
    rfl
  have h1 : envGet (runDockerComposeCommand r sh sp).2.env "COMPOSE_PROJ_NAME" =
      some ("buildkite" ++ goRemoveDashes (envGetD sh.env "BUILDKITE_JOB_ID")) := by
    rw [runDockerComposeCommand_env, envGet_envSet_self, hsplit]
  refine ⟨h1, fun hj => ?_⟩
  rw [h1, hj]
  have hr : goRemoveDashes "abc-123-def" = "abc123def" := by decide
  rw [hr]
  rfl

/-- Witness for C9 at a concrete shell with a hyphenated job id. -/
theorem compose_project_name_strips_hyphens_witness :
    envGetD hyphenJobSh.env "BUILDKITE_JOB_ID" = "abc-123-def" ∧
    envGet (runDockerComposeCommand allOk hyphenJobSh "./script.sh").2.env "COMPOSE_PROJ_NAME" =
      some "buildkiteabc123def" :=
  ⟨by decide,
   (compose_project_name_strips_hyphens allOk hyphenJobSh "./script.sh").2 (by decide)⟩

/-- C10: the second leave-volumes case of the switch is dead: the run entry
point behaves identically to its form with the duplicated case removed, on
every runner, shell and script path. -/
theorem duplicate_leave_volumes_case_removable (r : Runner) (sh : Shell) (sp : String) :
    runDeprecatedDockerIntegration r sh sp = runDeprecatedDockerIntegrationDedup r sh sp := by
  unfold runDeprecatedDockerIntegration runDeprecatedDockerIntegrationDedup
  cases hrel : goFilepathRel sh.wd sp
  · rfl
  · split_ifs <;> rfl

end DockerBridge
